import Mathlib

/-
Verification development for the streaming layer (Streaming.cpp).

The definitions below are a shallow embedding of the C++ source:
pure byte-building code becomes functions on `List Nat` (one Nat per
byte), the per-stream mutable state becomes an explicit `Stream`
record threaded through the handlers, and external collaborators
(RNG, netdb lookup, clock, gzip, DSA signing, tunnel pool) become
explicit parameters or oracle records.  Quick-ACK emission is
recorded as the list of ack-through values emitted by a handler, in
emission order.
-/

namespace I2pdStreaming

/-- Modelled from the spec: packet flag bit values come from Streaming.h,
which is not under src/; the spec lists the flags in wire-bit order
(SYNCHRONIZE, CLOSE, RESET, SIGNATURE_INCLUDED, SIGNATURE_REQUESTED,
FROM_INCLUDED, DELAY_REQUESTED, MAX_PACKET_SIZE_INCLUDED,
PROFILE_INTERACTIVE, ECHO, NO_ACK), so each gets the next power of two. -/
def PACKET_FLAG_SYNCHRONIZE : Nat := 1

def PACKET_FLAG_CLOSE : Nat := 2

def PACKET_FLAG_RESET : Nat := 4

def PACKET_FLAG_SIGNATURE_INCLUDED : Nat := 8

def PACKET_FLAG_SIGNATURE_REQUESTED : Nat := 16

def PACKET_FLAG_FROM_INCLUDED : Nat := 32

def PACKET_FLAG_DELAY_REQUESTED : Nat := 64

def PACKET_FLAG_MAX_PACKET_SIZE_INCLUDED : Nat := 128

def PACKET_FLAG_PROFILE_INTERACTIVE : Nat := 256

def PACKET_FLAG_ECHO : Nat := 512

def PACKET_FLAG_NO_ACK : Nat := 1024

/-- Modelled from the spec: STREAMING_MTU = 1730 is defined in Streaming.h,
not under src/. -/
def STREAMING_MTU : Nat := 1730

/-- Modelled from the spec: the canonical identity serialization
(i2p::data::Identity) is 387 bytes; the struct lives outside src/. -/
def IDENTITY_SIZE : Nat := 387

/-- Big-endian 32-bit serialization of a machine word, as htobe32 writes it. -/
def be32 (x : Nat) : List Nat :=
  [x / 16777216 % 256, x / 65536 % 256, x / 256 % 256, x % 256]

/-- Big-endian 16-bit serialization of a machine word, as htobe16 writes it. -/
def be16 (x : Nat) : List Nat :=
  [x / 256 % 256, x % 256]

/-- Byte accessor on a buffer (reads past the end give 0). -/
def getByte (b : List Nat) (i : Nat) : Nat := b.getD i 0

/-- Modelled from the spec: big-endian 16-bit field read of the Packet
accessors (Streaming.h, not under src/). -/
def rd16 (b : List Nat) (off : Nat) : Nat :=
  getByte b off * 256 + getByte b (off + 1)

/-- Modelled from the spec: big-endian 32-bit field read of the Packet
accessors (Streaming.h, not under src/). -/
def rd32 (b : List Nat) (off : Nat) : Nat :=
  ((getByte b off * 256 + getByte b (off + 1)) * 256 + getByte b (off + 2)) * 256
    + getByte b (off + 3)

/-- Wire offset 0: send stream id. -/
def pktSendStreamID (b : List Nat) : Nat := rd32 b 0

/-- Wire offset 4: receive stream id. -/
def pktRecvStreamID (b : List Nat) : Nat := rd32 b 4

/-- Wire offset 8: sequence number. -/
def pktSeqn (b : List Nat) : Nat := rd32 b 8

/-- Wire offset 12: ack-through. -/
def pktAckThrough (b : List Nat) : Nat := rd32 b 12

/-- Wire offset 18 (after 1-byte NACK count = 0 and 1-byte resend delay):
the 16-bit flags field. -/
def pktFlags (b : List Nat) : Nat := rd16 b 18

/-- Wire offset 20: the 16-bit options-size field. -/
def pktOptionSize (b : List Nat) : Nat := rd16 b 20

/-- The options block: `options_size` bytes starting at offset 22. -/
def pktOptions (b : List Nat) : List Nat :=
  (b.drop 22).take (pktOptionSize b)

/-- The application payload: everything after the options block. -/
def pktPayload (b : List Nat) : List Nat :=
  b.drop (22 + pktOptionSize b)

/-- Test of one flag bit in a flags word. -/
def hasFlag (flags mask : Nat) : Bool := decide (flags &&& mask ≠ 0)

/-- A lease: inbound tunnel gateway, tunnel id and expiry (ms since epoch). -/
structure Lease where
  tunnelGateway : Nat
  tunnelID : Nat
  endDate : Nat
  deriving DecidableEq, Repr

/-- A remote lease set, abstracted to its identity hash and its leases. -/
structure LeaseSetM where
  identHash : Nat
  leases : List Lease
  deriving DecidableEq, Repr

/-- Modelled from the spec: LeaseSet::GetNonExpiredLeases (LeaseSet.cpp is
not under src/); a lease is non-expired iff now < end_date_ms. -/
def nonExpiredLeases (ls : LeaseSetM) (now : Nat) : List Lease :=
  ls.leases.filter (fun l => decide (now < l.endDate))

/-- The all-zero lease value used as the default of the random pick and
as the initial current lease of a new stream. -/
def zeroLease : Lease := { tunnelGateway := 0, tunnelID := 0, endDate := 0 }

/-- An inbound packet in parsed form: the fields the stream handlers read
through the Packet accessors.  `identity` abstracts the identity hash
carried by the FROM option when PACKET_FLAG_FROM_INCLUDED is set, and
`payload` is the application payload after the options block. -/
structure Packet where
  sendStreamID : Nat
  recvStreamID : Nat
  seqn : Nat
  ackThrough : Nat
  flags : Nat
  identity : Nat
  payload : List Nat
  deriving DecidableEq, Repr

/-- Packet::IsSYN: the SYNCHRONIZE flag is set. -/
def Packet.IsSYN (p : Packet) : Bool := hasFlag p.flags PACKET_FLAG_SYNCHRONIZE

/-- Per-stream state: the fields of class Stream that the handlers mutate.
`savedPackets` is the reorder buffer (kept ordered by sequence number, as
the std::set with the Streaming.h comparator holds it); `receiveQueue` is
the FIFO of in-order packets not yet drained by the application. -/
structure Stream where
  sendStreamID : Nat
  recvStreamID : Nat
  sequenceNumber : Nat
  lastReceivedSequenceNumber : Nat
  isOpen : Bool
  isOutgoing : Bool
  leaseSetUpdated : Bool
  remoteIdentity : Nat
  remoteLeaseSet : Option LeaseSetM
  currentRemoteLease : Lease
  savedPackets : List Packet
  receiveQueue : List Packet
  deriving DecidableEq, Repr

/-- External inputs consumed while handling one inbound packet: the netdb
answer used if UpdateCurrentRemoteLease must resolve the lease set, the
RNG word used for the random lease pick, and the clock. -/
structure Oracle where
  netdbFind : Option LeaseSetM
  rnd : Nat
  now : Nat
  deriving DecidableEq, Repr

/-- Stream::UpdateCurrentRemoteLease: resolve the lease set from netdb if
absent; pick a uniformly random non-expired lease, or mark the current
lease expired (endDate 0) if none exists. -/
def Stream.UpdateCurrentRemoteLease (s : Stream) (netdbFind : Option LeaseSetM)
    (rnd now : Nat) : Stream :=
  let s1 := if s.remoteLeaseSet.isNone then { s with remoteLeaseSet := netdbFind } else s
  match s1.remoteLeaseSet with
  | some ls =>
      let leases := nonExpiredLeases ls now
      if leases.isEmpty then
        { s1 with currentRemoteLease := { s1.currentRemoteLease with endDate := 0 } }
      else
        { s1 with currentRemoteLease :=
            leases.getD (rnd % leases.length) zeroLease }
  | none => { s1 with currentRemoteLease := { s1.currentRemoteLease with endDate := 0 } }

/-- Stream::Stream(service, local, remote): outgoing stream constructor.
Starts not open, with a random receive stream id, and immediately calls
UpdateCurrentRemoteLease. -/
def mkOutgoingStream (recvID : Nat) (remote : LeaseSetM) (rnd now : Nat) : Stream :=
  Stream.UpdateCurrentRemoteLease
    { sendStreamID := 0, recvStreamID := recvID, sequenceNumber := 0,
      lastReceivedSequenceNumber := 0, isOpen := false, isOutgoing := true,
      leaseSetUpdated := true, remoteIdentity := 0, remoteLeaseSet := some remote,
      currentRemoteLease := zeroLease,
      savedPackets := [], receiveQueue := [] } none rnd now

/-- Stream::Stream(service, local): incoming stream constructor.  Born open,
with no remote lease set bound yet. -/
def mkIncomingStream (recvID : Nat) : Stream :=
  { sendStreamID := 0, recvStreamID := recvID, sequenceNumber := 0,
    lastReceivedSequenceNumber := 0, isOpen := true, isOutgoing := true,
    leaseSetUpdated := true, remoteIdentity := 0, remoteLeaseSet := none,
    currentRemoteLease := zeroLease,
    savedPackets := [], receiveQueue := [] }

/-- Stream::ProcessPacket.  Handles the FROM option (learn the remote
identity; drop a bound lease set whose identity hash disagrees), enqueues a
non-empty payload, records the sequence number, and on CLOSE emits a
quick-ACK and closes the stream.  The returned list is the ack-through
values of the quick-ACKs sent. -/
def Stream.ProcessPacket (s : Stream) (p : Packet) : Stream × List Nat :=
  let s1 :=
    if hasFlag p.flags PACKET_FLAG_FROM_INCLUDED then
      let sA := { s with remoteIdentity := p.identity }
      match sA.remoteLeaseSet with
      | some ls => if p.identity ≠ ls.identHash then { sA with remoteLeaseSet := none } else sA
      | none => sA
    else s
  let s2 := if 0 < p.payload.length then { s1 with receiveQueue := s1.receiveQueue ++ [p] } else s1
  if hasFlag p.flags PACKET_FLAG_CLOSE then
    ({ s2 with lastReceivedSequenceNumber := p.seqn, isOpen := false }, [p.seqn])
  else
    ({ s2 with lastReceivedSequenceNumber := p.seqn }, [])

/-- Insertion into the reorder buffer.  Modelled from the spec: the buffer
is a set ordered by sequence number (std::set with the Streaming.h
comparator), so insertion keeps the list sorted and an equal key is not
inserted again. -/
def insertBySeqn (p : Packet) : List Packet → List Packet
  | [] => [p]
  | q :: rest =>
      if p.seqn < q.seqn then p :: q :: rest
      else if p.seqn = q.seqn then q :: rest
      else q :: insertBySeqn p rest

/-- Stream::SavePacket: store a future packet in the reorder buffer. -/
def Stream.SavePacket (s : Stream) (p : Packet) : Stream :=
  { s with savedPackets := insertBySeqn p s.savedPackets }

/-- The drain loop of Stream::HandleNextPacket: walk the reorder buffer in
sequence order, processing each packet whose sequence number is exactly
one past the last received, and stop at the first gap.  Returns the final
state, the remaining buffer, and the quick-ACKs emitted by processing. -/
def drainSavedLoop : Stream → List Packet → Stream × List Packet × List Nat
  | s, [] => (s, [], [])
  | s, p :: rest =>
      if p.seqn = s.lastReceivedSequenceNumber + 1 then
        let pr := Stream.ProcessPacket s p
        let dr := drainSavedLoop pr.1 rest
        (dr.1, dr.2.1, pr.2 ++ dr.2.2)
      else
        (s, p :: rest, [])

/-- The body of Stream::HandleNextPacket after the send-stream-id learning
step: drop pure ACKs, process in-sequence packets (then drain the reorder
buffer and quick-ACK if still open), treat old sequence numbers as
duplicates (refresh the remote lease and re-ACK), and buffer future
packets.  Returns the new state and the ack-through values of the
quick-ACKs emitted, in order. -/
def Stream.HandleNextPacketBody (s0 : Stream) (p : Packet) (o : Oracle) : Stream × List Nat :=
  if p.seqn = 0 ∧ p.IsSYN = false then
    (s0, [])
  else if p.seqn = 0 ∨ p.seqn = s0.lastReceivedSequenceNumber + 1 then
    let pr := Stream.ProcessPacket s0 p
    let dr := drainSavedLoop pr.1 pr.1.savedPackets
    let s2 := { dr.1 with savedPackets := dr.2.1 }
    let finalAck := if s2.isOpen then [s2.lastReceivedSequenceNumber] else []
    (s2, pr.2 ++ dr.2.2 ++ finalAck)
  else if p.seqn ≤ s0.lastReceivedSequenceNumber then
    let s3 := Stream.UpdateCurrentRemoteLease s0 o.netdbFind o.rnd o.now
    (s3, [s3.lastReceivedSequenceNumber])
  else
    (Stream.SavePacket s0 p, [])

/-- Stream::HandleNextPacket: if the peer's stream id is still unknown,
learn it from the packet's receive stream id, then run the dispatch body
above. -/
def Stream.HandleNextPacket (s : Stream) (p : Packet) (o : Oracle) : Stream × List Nat :=
  Stream.HandleNextPacketBody
    (if s.sendStreamID = 0 then { s with sendStreamID := p.recvStreamID } else s) p o

/-- Result of Stream::Send: the new stream state, the bytes of the one
packet scheduled for transmission on the dispatch loop, and the return
value (number of payload bytes accepted). -/
structure SendResult where
  state : Stream
  scheduled : List Nat
  ret : Nat
  deriving DecidableEq, Repr

/-- Stream::Send.  Builds one packet: a SYN carrying the FROM identity, the
advertised MTU and a DSA signature (computed over the whole packet with
the 40 signature bytes zeroed) when the stream is not open, and a bare
packet with no flags and no options otherwise.  `identity` is the local
destination's 387-byte serialized identity, `sign` the external DSA
signer, and `uninit` the value of the resend-delay byte, whose slot the
code skips without writing.  Always schedules the packet and returns the
payload length; the timeout parameter is accepted but unused. -/
def Stream.Send (s : Stream) (identity : List Nat) (sign : List Nat → List Nat)
    (uninit : Nat) (buf : List Nat) (_timeout : Nat) : SendResult :=
  let seq := s.sequenceNumber
  let hdr := be32 s.sendStreamID ++ be32 s.recvStreamID ++ be32 seq ++ be32 0 ++ [0, uninit]
  if s.isOpen = false then
    let flags := PACKET_FLAG_SYNCHRONIZE ||| PACKET_FLAG_FROM_INCLUDED |||
      PACKET_FLAG_SIGNATURE_INCLUDED ||| PACKET_FLAG_MAX_PACKET_SIZE_INCLUDED |||
      PACKET_FLAG_NO_ACK
    let pre := hdr ++ be16 flags ++ be16 (IDENTITY_SIZE + 40 + 2) ++ identity ++ be16 STREAMING_MTU
    let signature := sign (pre ++ List.replicate 40 0 ++ buf)
    { state := { s with isOpen := true, sequenceNumber := seq + 1 },
      scheduled := pre ++ signature ++ buf,
      ret := buf.length }
  else
    { state := { s with sequenceNumber := seq + 1 },
      scheduled := hdr ++ be16 0 ++ be16 0 ++ buf,
      ret := buf.length }

/-- Stream::Close.  If the stream is open: mark it closed, consume a
sequence number, build a FIN packet with flags CLOSE and
SIGNATURE_INCLUDED whose 40-byte signature option is DSA-computed over
the packet with the signature region zeroed, and schedule it.  Otherwise
do nothing. -/
def Stream.Close (s : Stream) (sign : List Nat → List Nat) (uninit : Nat) :
    Stream × Option (List Nat) :=
  if s.isOpen = true then
    let seq := s.sequenceNumber
    let hdr := be32 s.sendStreamID ++ be32 s.recvStreamID ++ be32 seq ++
      be32 s.lastReceivedSequenceNumber ++ [0, uninit]
    let pre := hdr ++ be16 (PACKET_FLAG_CLOSE ||| PACKET_FLAG_SIGNATURE_INCLUDED) ++ be16 40
    let signature := sign (pre ++ List.replicate 40 0)
    ({ s with isOpen := false, sequenceNumber := seq + 1 }, some (pre ++ signature))
  else
    (s, none)

/-- External inputs consumed by one Stream::SendPacket(buf, len) call: the
netdb answer for a possible lease-set resolution, the RNG words for the
up to two UpdateCurrentRemoteLease calls, the clock, and whether the
tunnel pool yields an outbound tunnel. -/
structure SendPacketEnv where
  netdbFind : Option LeaseSetM
  rnd1 : Nat
  rnd2 : Nat
  now : Nat
  tunnelAvailable : Bool
  deriving DecidableEq, Repr

/-- The garlic-wrap call made by Stream::SendPacket, abstracted to whether
the local lease-set message was bundled alongside the data message. -/
structure WrapCall where
  bundledLeaseSet : Bool
  deriving DecidableEq, Repr

/-- Stream::SendPacket(buf, len): resolve the remote lease set if absent
(failing the send if still unknown), piggyback the local lease-set
message exactly when the per-stream flag is pending (clearing it), wrap,
then transmit through an outbound tunnel over a non-expired lease,
refreshing the current lease once if it has expired.  Returns the new
state, the wrap call if one was made, and the success flag. -/
def Stream.SendPacketLow (s : Stream) (env : SendPacketEnv) :
    Stream × Option WrapCall × Bool :=
  let s1 := if s.remoteLeaseSet.isNone then
      Stream.UpdateCurrentRemoteLease s env.netdbFind env.rnd1 env.now
    else s
  if s1.remoteLeaseSet.isNone then
    (s1, none, false)
  else
    let w : WrapCall := { bundledLeaseSet := s1.leaseSetUpdated }
    let s2 := { s1 with leaseSetUpdated := false }
    if env.tunnelAvailable then
      let s3 := if s2.currentRemoteLease.endDate ≤ env.now then
          Stream.UpdateCurrentRemoteLease s2 env.netdbFind env.rnd2 env.now
        else s2
      if env.now < s3.currentRemoteLease.endDate then
        (s3, some w, true)
      else
        (s3, some w, false)
    else
      (s2, some w, false)

/-- A streaming destination, abstracted to what its packet dispatch
touches: the recv-stream-id-indexed table of streams and whether an
acceptor callback is registered. -/
structure Destination where
  streams : List (Nat × Stream)
  hasAcceptor : Bool
  deriving DecidableEq, Repr

/-- Association-list update used by the std::map operator[] assignments:
overwrite the binding if the key is present, append it otherwise. -/
def setAssoc {α : Type} (l : List (Nat × α)) (k : Nat) (v : α) : List (Nat × α) :=
  match l with
  | [] => [(k, v)]
  | (k', v') :: rest => if k == k' then (k, v) :: rest else (k', v') :: setAssoc rest k v

/-- Result of StreamingDestination::HandleNextPacket. -/
structure DestResult where
  dest : Destination
  acceptorInvoked : Bool
  forwardedTo : Option Nat
  droppedUnknown : Bool
  acks : List Nat
  deriving DecidableEq, Repr

/-- StreamingDestination::HandleNextPacket: a packet with a non-zero send
stream id is forwarded to the matching stream (dropped with a log if
none); a packet with send stream id 0 unconditionally creates a new
incoming stream with a fresh random recv stream id, invokes the acceptor
callback if one is set, and forwards the packet to the new stream. -/
def Destination.HandleNextPacket (d : Destination) (p : Packet) (freshRecvID : Nat)
    (o : Oracle) : DestResult :=
  if p.sendStreamID ≠ 0 then
    match d.streams.lookup p.sendStreamID with
    | some s =>
        let r := Stream.HandleNextPacket s p o
        { dest := { d with streams := setAssoc d.streams p.sendStreamID r.1 },
          acceptorInvoked := false, forwardedTo := some p.sendStreamID,
          droppedUnknown := false, acks := r.2 }
    | none =>
        { dest := d, acceptorInvoked := false, forwardedTo := none,
          droppedUnknown := true, acks := [] }
  else
    let ns := mkIncomingStream freshRecvID
    let r := Stream.HandleNextPacket ns p o
    { dest := { d with streams := setAssoc d.streams freshRecvID r.1 },
      acceptorInvoked := d.hasAcceptor, forwardedTo := some freshRecvID,
      droppedUnknown := false, acks := r.2 }

/-- StreamingDestinations::PostNextPacket: look the destination hash up in
the registry table; forward the packet if found, otherwise drop it with
only a log message.  The Bool records whether the packet was dropped. -/
def PostNextPacket (dests : List (Nat × Destination)) (destination : Nat)
    (p : Packet) (freshRecvID : Nat) (o : Oracle) : List (Nat × Destination) × Bool :=
  match dests.lookup destination with
  | some d =>
      (setAssoc dests destination (Destination.HandleNextPacket d p freshRecvID o).dest, false)
  | none => (dests, true)

/-- CreateDataMessage, given the gzip stream produced by the external
compressor: the message body is the 4-byte big-endian compressed size
followed by the gzip stream, in which bytes 4..7 are overwritten with
zeroes (source and destination ports) and byte 9 with protocol id 6. -/
def CreateDataMessage (compressed : List Nat) : List Nat :=
  let inner := ((((compressed.set 4 0).set 5 0).set 6 0).set 7 0).set 9 6
  be32 compressed.length ++ inner

/-- Parsing the fixed 22-byte header region of a built packet recovers the
fields written into it: the sequence number at offset 8, the flags at
offset 18, the options size at offset 20, and the bytes from offset 22 on. -/
theorem parse_header (a0 a1 a2 a3 b0 b1 b2 b3 c0 c1 c2 c3 d0 d1 d2 d3 n0 n1 f0 f1 g0 g1 : Nat)
    (rest : List Nat) :
    pktSeqn (a0 :: a1 :: a2 :: a3 :: b0 :: b1 :: b2 :: b3 :: c0 :: c1 :: c2 :: c3 ::
        d0 :: d1 :: d2 :: d3 :: n0 :: n1 :: f0 :: f1 :: g0 :: g1 :: rest)
      = ((c0 * 256 + c1) * 256 + c2) * 256 + c3 ∧
    pktFlags (a0 :: a1 :: a2 :: a3 :: b0 :: b1 :: b2 :: b3 :: c0 :: c1 :: c2 :: c3 ::
        d0 :: d1 :: d2 :: d3 :: n0 :: n1 :: f0 :: f1 :: g0 :: g1 :: rest)
      = f0 * 256 + f1 ∧
    pktOptionSize (a0 :: a1 :: a2 :: a3 :: b0 :: b1 :: b2 :: b3 :: c0 :: c1 :: c2 :: c3 ::
        d0 :: d1 :: d2 :: d3 :: n0 :: n1 :: f0 :: f1 :: g0 :: g1 :: rest)
      = g0 * 256 + g1 ∧
    (a0 :: a1 :: a2 :: a3 :: b0 :: b1 :: b2 :: b3 :: c0 :: c1 :: c2 :: c3 ::
        d0 :: d1 :: d2 :: d3 :: n0 :: n1 :: f0 :: f1 :: g0 :: g1 :: rest).drop 22 = rest :=
  ⟨rfl, rfl, rfl, rfl⟩

/-- UpdateCurrentRemoteLease touches only the remote lease set binding and
the current lease; every other stream field is preserved. -/
theorem UpdateCurrentRemoteLease_preserves (s : Stream) (nf : Option LeaseSetM)
    (rnd now : Nat) :
    (Stream.UpdateCurrentRemoteLease s nf rnd now).lastReceivedSequenceNumber
        = s.lastReceivedSequenceNumber ∧
    (Stream.UpdateCurrentRemoteLease s nf rnd now).receiveQueue = s.receiveQueue ∧
    (Stream.UpdateCurrentRemoteLease s nf rnd now).savedPackets = s.savedPackets ∧
    (Stream.UpdateCurrentRemoteLease s nf rnd now).leaseSetUpdated = s.leaseSetUpdated ∧
    (Stream.UpdateCurrentRemoteLease s nf rnd now).isOpen = s.isOpen ∧
    (Stream.UpdateCurrentRemoteLease s nf rnd now).sequenceNumber = s.sequenceNumber := by
  unfold Stream.UpdateCurrentRemoteLease
  dsimp only
  refine ⟨?_, ?_, ?_, ?_, ?_, ?_⟩ <;> (repeat' split) <;> rfl

/-- ProcessPacket always records the processed packet's sequence number as
the last received one. -/
theorem ProcessPacket_lrsn (s : Stream) (p : Packet) :
    ((Stream.ProcessPacket s p).1).lastReceivedSequenceNumber = p.seqn := by
  unfold Stream.ProcessPacket
  dsimp only
  repeat' split
  all_goals rfl

/-- The reorder-buffer drain loop never decreases the last received
sequence number. -/
theorem drainSavedLoop_mono (l : List Packet) :
    ∀ s : Stream, s.lastReceivedSequenceNumber
      ≤ (drainSavedLoop s l).1.lastReceivedSequenceNumber := by
  induction l with
  | nil => intro s; simp [drainSavedLoop]
  | cons p rest ih =>
      intro s
      unfold drainSavedLoop
      dsimp only
      split
      · dsimp only
        have h1 := ProcessPacket_lrsn s p
        have h2 := ih (Stream.ProcessPacket s p).1
        omega
      · simp

/-- The dispatch body never decreases `last_received_sequence_number` when
the inbound packet's sequence number is nonzero. -/
theorem HandleNextPacketBody_mono (s0 : Stream) (p : Packet) (o : Oracle) (h : p.seqn ≠ 0) :
    s0.lastReceivedSequenceNumber
      ≤ ((Stream.HandleNextPacketBody s0 p o).1).lastReceivedSequenceNumber := by
  unfold Stream.HandleNextPacketBody
  rw [if_neg (by simp [h])]
  by_cases h2 : p.seqn = 0 ∨ p.seqn = s0.lastReceivedSequenceNumber + 1
  · rw [if_pos h2]
    dsimp only
    have hseq : p.seqn = s0.lastReceivedSequenceNumber + 1 := h2.resolve_left h
    have h1 := ProcessPacket_lrsn s0 p
    have hdr := drainSavedLoop_mono (Stream.ProcessPacket s0 p).1.savedPackets
      (Stream.ProcessPacket s0 p).1
    omega
  · rw [if_neg h2]
    by_cases h3 : p.seqn ≤ s0.lastReceivedSequenceNumber
    · rw [if_pos h3]
      dsimp only
      have h4 := (UpdateCurrentRemoteLease_preserves s0 o.netdbFind o.rnd o.now).1
      omega
    · rw [if_neg h3]
      simp [Stream.SavePacket]

/-- C2 (amended): handling any inbound packet whose sequence number is
nonzero never decreases `last_received_sequence_number`. -/
theorem C2_lrsn_monotone (s : Stream) (p : Packet) (o : Oracle) (h : p.seqn ≠ 0) :
    s.lastReceivedSequenceNumber
      ≤ ((Stream.HandleNextPacket s p o).1).lastReceivedSequenceNumber := by
  unfold Stream.HandleNextPacket
  generalize hgen : (if s.sendStreamID = 0 then { s with sendStreamID := p.recvStreamID }
      else s) = s0
  have hL : s.lastReceivedSequenceNumber = s0.lastReceivedSequenceNumber := by
    rw [← hgen]; split <;> rfl
  rw [hL]
  exact HandleNextPacketBody_mono s0 p o h

/-- Oracle used by the concrete counterexample and scenario runs; its
fields are never consulted on those paths. -/
def plainOracle : Oracle := { netdbFind := none, rnd := 0, now := 0 }

/-- A flag-free data packet with sequence number n and payload [n]. -/
def dataPacket (n : Nat) : Packet :=
  { sendStreamID := 1, recvStreamID := 2, seqn := n, ackThrough := 0, flags := 0,
    identity := 0, payload := [n] }

/-- A SYN packet with sequence number 0 and empty payload, as the opening
packet built by Stream::Send has. -/
def synZeroPacket : Packet :=
  { sendStreamID := 1, recvStreamID := 2, seqn := 0, ackThrough := 0,
    flags := PACKET_FLAG_SYNCHRONIZE ||| PACKET_FLAG_FROM_INCLUDED |||
      PACKET_FLAG_SIGNATURE_INCLUDED ||| PACKET_FLAG_MAX_PACKET_SIZE_INCLUDED |||
      PACKET_FLAG_NO_ACK,
    identity := 0, payload := [] }

/-- A fresh incoming stream after handling the in-order data packet with
sequence number 1. -/
def c2AfterData : Stream :=
  (Stream.HandleNextPacket (mkIncomingStream 7) (dataPacket 1) plainOracle).1

/-- The same stream after a SYN with sequence number 0 then arrives. -/
def c2AfterSyn : Stream :=
  (Stream.HandleNextPacket c2AfterData synZeroPacket plainOracle).1

/-- C2 (counterexample): after an in-order packet with sequence number 1,
handling a SYN packet with sequence number 0 resets
`last_received_sequence_number` from 1 back to 0, so the value is not
monotonically non-decreasing over a sequence of HandleNextPacket calls. -/
theorem C2_counterexample :
    c2AfterData.lastReceivedSequenceNumber = 1 ∧
    c2AfterSyn.lastReceivedSequenceNumber = 0 := by decide

/-- Witness for C2_lrsn_monotone at a concrete input. -/
theorem C2_lrsn_monotone_witness :
    (dataPacket 4).seqn ≠ 0 ∧
    c2AfterData.lastReceivedSequenceNumber
      ≤ ((Stream.HandleNextPacket c2AfterData (dataPacket 4) plainOracle).1).lastReceivedSequenceNumber :=
  ⟨by decide, C2_lrsn_monotone c2AfterData (dataPacket 4) plainOracle (by decide)⟩

/-- Fold of Stream::HandleNextPacket over a list of inbound packets,
recording the quick-ACKs each packet triggered, in arrival order. -/
def runPackets : Stream → List Packet → Stream × List (List Nat)
  | s, [] => (s, [])
  | s, p :: rest =>
      let r := Stream.HandleNextPacket s p plainOracle
      let rr := runPackets r.1 rest
      (rr.1, r.2 :: rr.2)

/-- The reorder scenario: a fresh open stream receiving sequence numbers
1, 3, 2, 5, 4 in that arrival order. -/
def reorderRun : Stream × List (List Nat) :=
  runPackets (mkIncomingStream 7) (([1, 3, 2, 5, 4].map dataPacket))

/-- C3: submitting packets with sequence numbers 1, 3, 2, 5, 4 to a freshly
opened stream (last received 0, open) enqueues the payloads in sequence
order 1..5 and emits exactly three quick-ACKs: ack-through 1 after packet
1, ack-through 3 after packet 2 drains packet 3, and ack-through 5 after
packet 4 drains packet 5; the out-of-order arrivals 3 and 5 trigger none. -/
theorem C3_reorder_delivery_and_acks :
    (mkIncomingStream 7).lastReceivedSequenceNumber = 0 ∧
    (mkIncomingStream 7).isOpen = true ∧
    reorderRun.1.receiveQueue.map Packet.seqn = [1, 2, 3, 4, 5] ∧
    reorderRun.1.receiveQueue.map Packet.payload = [[1], [2], [3], [4], [5]] ∧
    reorderRun.2 = [[1], [], [3], [], [5]] := by decide

/-- The random lease selection performed by UpdateCurrentRemoteLease: the
element at the random word modulo the list length. -/
def pickLease (l : List Lease) (rnd : Nat) : Lease := l.getD (rnd % l.length) zeroLease

/-- A random pick by index modulo the length stays inside the list. -/
theorem pickLease_mem (l : List Lease) (r : Nat) (h : l ≠ []) :
    pickLease l r ∈ l := by
  have hlen : 0 < l.length := List.length_pos.mpr h
  have hlt : r % l.length < l.length := Nat.mod_lt _ hlen
  unfold pickLease
  rw [List.getD_eq_getElem l zeroLease hlt]
  exact List.getElem_mem hlt

/-- With a lease set bound and at least one non-expired lease,
UpdateCurrentRemoteLease re-selects the current lease as the non-expired
lease at the random index modulo the count, leaving all else unchanged. -/
theorem UpdateCurrentRemoteLease_some (s : Stream) (nf : Option LeaseSetM) (rnd now : Nat)
    (ls : LeaseSetM) (hls : s.remoteLeaseSet = some ls)
    (hne : nonExpiredLeases ls now ≠ []) :
    Stream.UpdateCurrentRemoteLease s nf rnd now
      = { s with currentRemoteLease := pickLease (nonExpiredLeases ls now) rnd } := by
  unfold Stream.UpdateCurrentRemoteLease pickLease
  have hempty : (nonExpiredLeases ls now).isEmpty = false := by
    simp [List.isEmpty_iff, hne]
  simp only [hls, Option.isNone_some, Bool.false_eq_true, if_false, hempty]

/-- The learning of the peer's stream id changes no field other than
`send_stream_id`. -/
theorem learnStep_preserves (s : Stream) (p : Packet) :
    (if s.sendStreamID = 0 then { s with sendStreamID := p.recvStreamID }
        else s).lastReceivedSequenceNumber = s.lastReceivedSequenceNumber ∧
    (if s.sendStreamID = 0 then { s with sendStreamID := p.recvStreamID }
        else s).receiveQueue = s.receiveQueue ∧
    (if s.sendStreamID = 0 then { s with sendStreamID := p.recvStreamID }
        else s).savedPackets = s.savedPackets ∧
    (if s.sendStreamID = 0 then { s with sendStreamID := p.recvStreamID }
        else s).remoteLeaseSet = s.remoteLeaseSet ∧
    (if s.sendStreamID = 0 then { s with sendStreamID := p.recvStreamID }
        else s).isOpen = s.isOpen ∧
    (if s.sendStreamID = 0 then { s with sendStreamID := p.recvStreamID }
        else s).leaseSetUpdated = s.leaseSetUpdated := by
  split <;> exact ⟨rfl, rfl, rfl, rfl, rfl, rfl⟩

/-- On a duplicate (nonzero sequence number at or below the last received
one) with a bound lease set holding a non-expired lease, the dispatch body
refreshes the current lease by a random pick and re-ACKs the last
received sequence number. -/
theorem HandleNextPacketBody_duplicate (s0 : Stream) (p : Packet) (o : Oracle)
    (ls : LeaseSetM) (hr0 : p.seqn ≠ 0) (hrL : p.seqn ≤ s0.lastReceivedSequenceNumber)
    (hls : s0.remoteLeaseSet = some ls) (hne : nonExpiredLeases ls o.now ≠ []) :
    Stream.HandleNextPacketBody s0 p o
      = ({ s0 with currentRemoteLease := pickLease (nonExpiredLeases ls o.now) o.rnd },
          [s0.lastReceivedSequenceNumber]) := by
  unfold Stream.HandleNextPacketBody
  rw [if_neg (by simp [hr0])]
  have h2 : ¬ (p.seqn = 0 ∨ p.seqn = s0.lastReceivedSequenceNumber + 1) := by omega
  rw [if_neg h2, if_pos hrL]
  dsimp only
  rw [UpdateCurrentRemoteLease_some s0 o.netdbFind o.rnd o.now ls hls hne]

/-- C4 (amended): a non-SYN packet with sequence number r, 0 < r ≤ L,
arriving on a stream with last received sequence number L > 0 and a bound
lease set with a non-expired lease, delivers nothing, drops the packet,
emits exactly one quick-ACK with ack-through L, and re-selects
`current_remote_lease` uniformly at random among the non-expired leases
(a pick that may equal the previous lease). -/
theorem C4_duplicate_refresh (s : Stream) (p : Packet) (o : Oracle) (ls : LeaseSetM)
    (hL : 0 < s.lastReceivedSequenceNumber) (hr0 : 0 < p.seqn)
    (hrL : p.seqn ≤ s.lastReceivedSequenceNumber) (hsyn : p.IsSYN = false)
    (hls : s.remoteLeaseSet = some ls) (hne : nonExpiredLeases ls o.now ≠ []) :
    (Stream.HandleNextPacket s p o).2 = [s.lastReceivedSequenceNumber] ∧
    (Stream.HandleNextPacket s p o).1.receiveQueue = s.receiveQueue ∧
    (Stream.HandleNextPacket s p o).1.savedPackets = s.savedPackets ∧
    (Stream.HandleNextPacket s p o).1.lastReceivedSequenceNumber
      = s.lastReceivedSequenceNumber ∧
    (Stream.HandleNextPacket s p o).1.currentRemoteLease ∈ nonExpiredLeases ls o.now := by
  unfold Stream.HandleNextPacket
  have hpres := learnStep_preserves s p
  revert hpres
  generalize hgen : (if s.sendStreamID = 0 then { s with sendStreamID := p.recvStreamID }
      else s) = s0
  intro hpres
  obtain ⟨e1, e2, e3, e4, _, _⟩ := hpres
  rw [HandleNextPacketBody_duplicate s0 p o ls (by omega) (by omega) (by rw [e4, hls]) hne]
  refine ⟨by rw [e1], by exact e2, by exact e3, by rw [e1], ?_⟩
  exact pickLease_mem _ _ hne

/-- First of the two non-expired leases in the duplicate scenario. -/
def leaseA : Lease := { tunnelGateway := 11, tunnelID := 1, endDate := 100 }

/-- Second of the two non-expired leases in the duplicate scenario. -/
def leaseB : Lease := { tunnelGateway := 22, tunnelID := 2, endDate := 100 }

/-- A remote lease set advertising two distinct non-expired leases. -/
def twoLeaseSet : LeaseSetM := { identHash := 1, leases := [leaseA, leaseB] }

/-- Oracle for the duplicate: clock at 10 (both leases valid), random word
0, so the random pick lands on the first lease again. -/
def dupOracle : Oracle := { netdbFind := none, rnd := 0, now := 10 }

/-- An outgoing stream bound to the two-lease set (initial random pick:
index 0, i.e. leaseA) after receiving sequence numbers 1..5 in order. -/
def c4Stream : Stream :=
  (runPackets (mkOutgoingStream 9 twoLeaseSet 0 10) ([1, 2, 3, 4, 5].map dataPacket)).1

/-- C4 (counterexample): with two distinct non-expired leases available and
last received sequence number 5, handling the duplicate with sequence
number 4 emits the quick-ACK for 5 but leaves `current_remote_lease`
equal to leaseA — the random re-pick chose the same lease, so the claim
that the lease is replaced with a different one fails. -/
theorem C4_counterexample :
    leaseA ≠ leaseB ∧
    nonExpiredLeases twoLeaseSet dupOracle.now = [leaseA, leaseB] ∧
    c4Stream.lastReceivedSequenceNumber = 5 ∧
    c4Stream.remoteLeaseSet = some twoLeaseSet ∧
    c4Stream.currentRemoteLease = leaseA ∧
    (Stream.HandleNextPacket c4Stream (dataPacket 4) dupOracle).2 = [5] ∧
    (Stream.HandleNextPacket c4Stream (dataPacket 4) dupOracle).1.currentRemoteLease
      = leaseA := by decide

/-- Witness for C4_duplicate_refresh at a concrete input. -/
theorem C4_duplicate_refresh_witness :
    0 < c4Stream.lastReceivedSequenceNumber ∧
    0 < (dataPacket 4).seqn ∧
    (dataPacket 4).seqn ≤ c4Stream.lastReceivedSequenceNumber ∧
    (dataPacket 4).IsSYN = false ∧
    c4Stream.remoteLeaseSet = some twoLeaseSet ∧
    nonExpiredLeases twoLeaseSet dupOracle.now ≠ [] ∧
    ((Stream.HandleNextPacket c4Stream (dataPacket 4) dupOracle).2
        = [c4Stream.lastReceivedSequenceNumber] ∧
      (Stream.HandleNextPacket c4Stream (dataPacket 4) dupOracle).1.receiveQueue
        = c4Stream.receiveQueue ∧
      (Stream.HandleNextPacket c4Stream (dataPacket 4) dupOracle).1.savedPackets
        = c4Stream.savedPackets ∧
      (Stream.HandleNextPacket c4Stream (dataPacket 4) dupOracle).1.lastReceivedSequenceNumber
        = c4Stream.lastReceivedSequenceNumber ∧
      (Stream.HandleNextPacket c4Stream (dataPacket 4) dupOracle).1.currentRemoteLease
        ∈ nonExpiredLeases twoLeaseSet dupOracle.now) :=
  ⟨by decide, by decide, by decide, by decide, by decide, by decide,
    C4_duplicate_refresh c4Stream (dataPacket 4) dupOracle twoLeaseSet (by decide)
      (by decide) (by decide) (by decide) (by decide) (by decide)⟩

/-- Flags parse of a packet built with the 18-byte numeric header followed
by 16-bit flags and options-size fields. -/
theorem pktFlags_built (A B C D n0 n1 f g : Nat) (rest : List Nat) :
    pktFlags (be32 A ++ be32 B ++ be32 C ++ be32 D ++ [n0, n1] ++ be16 f ++ be16 g ++ rest)
      = f / 256 % 256 * 256 + f % 256 := rfl

/-- Sequence-number parse of a packet built with the standard header. -/
theorem pktSeqn_built (A B C D n0 n1 f g : Nat) (rest : List Nat) :
    pktSeqn (be32 A ++ be32 B ++ be32 C ++ be32 D ++ [n0, n1] ++ be16 f ++ be16 g ++ rest)
      = ((C / 16777216 % 256 * 256 + C / 65536 % 256) * 256 + C / 256 % 256) * 256
        + C % 256 := rfl

/-- Options-size parse of a packet built with the standard header. -/
theorem pktOptionSize_built (A B C D n0 n1 f g : Nat) (rest : List Nat) :
    pktOptionSize (be32 A ++ be32 B ++ be32 C ++ be32 D ++ [n0, n1] ++ be16 f ++ be16 g ++ rest)
      = g / 256 % 256 * 256 + g % 256 := rfl

/-- The bytes after the 22-byte fixed header of a built packet. -/
theorem drop22_built (A B C D n0 n1 f g : Nat) (rest : List Nat) :
    (be32 A ++ be32 B ++ be32 C ++ be32 D ++ [n0, n1] ++ be16 f ++ be16 g ++ rest).drop 22
      = rest := rfl

/-- Flags parse of the SYN-shaped packet built by the initial Send: header,
flags, options size, identity, advertised MTU, signature, payload. -/
theorem pktFlags_synBuilt (A B C D n0 n1 f g m : Nat) (identity sigBytes buf : List Nat) :
    pktFlags (be32 A ++ be32 B ++ be32 C ++ be32 D ++ [n0, n1] ++ be16 f ++ be16 g ++
      identity ++ be16 m ++ sigBytes ++ buf) = f / 256 % 256 * 256 + f % 256 := rfl

/-- Sequence-number parse of the SYN-shaped packet built by the initial
Send. -/
theorem pktSeqn_synBuilt (A B C D n0 n1 f g m : Nat) (identity sigBytes buf : List Nat) :
    pktSeqn (be32 A ++ be32 B ++ be32 C ++ be32 D ++ [n0, n1] ++ be16 f ++ be16 g ++
        identity ++ be16 m ++ sigBytes ++ buf)
      = ((C / 16777216 % 256 * 256 + C / 65536 % 256) * 256 + C / 256 % 256) * 256
        + C % 256 := rfl

/-- Options-size parse of the SYN-shaped packet built by the initial Send. -/
theorem pktOptionSize_synBuilt (A B C D n0 n1 f g m : Nat) (identity sigBytes buf : List Nat) :
    pktOptionSize (be32 A ++ be32 B ++ be32 C ++ be32 D ++ [n0, n1] ++ be16 f ++ be16 g ++
      identity ++ be16 m ++ sigBytes ++ buf) = g / 256 % 256 * 256 + g % 256 := rfl

/-- The bytes after the 22-byte fixed header of the SYN-shaped packet. -/
theorem drop22_synBuilt (A B C D n0 n1 f g m : Nat) (identity sigBytes buf : List Nat) :
    (be32 A ++ be32 B ++ be32 C ++ be32 D ++ [n0, n1] ++ be16 f ++ be16 g ++
        identity ++ be16 m ++ sigBytes ++ buf).drop 22
      = identity ++ be16 m ++ sigBytes ++ buf := rfl

/-- Closing a stream that is not open does nothing at all. -/
theorem Close_not_open (s : Stream) (sg : List Nat → List Nat) (u : Nat)
    (h : s.isOpen = false) : Stream.Close s sg u = (s, none) := by
  unfold Stream.Close
  rw [if_neg (by simp [h])]

/-- After any Close call the stream is not open. -/
theorem Close_fst_not_open (s : Stream) (sg : List Nat → List Nat) (u : Nat) :
    (Stream.Close s sg u).1.isOpen = false := by
  unfold Stream.Close
  split
  · rfl
  · rename_i h
    simp only [Bool.not_eq_true] at h
    exact h

/-- C6: Close is idempotent.  A second Close never emits anything; Close on
a non-open stream does nothing; Close on an open stream marks it closed,
consumes exactly one outbound sequence number, and schedules one FIN
packet whose flags have CLOSE and SIGNATURE_INCLUDED set. -/
theorem C6_close_idempotent (s : Stream) (sg : List Nat → List Nat) (u1 u2 : Nat) :
    (Stream.Close (Stream.Close s sg u1).1 sg u2).2 = none ∧
    (s.isOpen = false → Stream.Close s sg u1 = (s, none)) ∧
    (s.isOpen = true →
      (Stream.Close s sg u1).1.isOpen = false ∧
      (Stream.Close s sg u1).1.sequenceNumber = s.sequenceNumber + 1 ∧
      ∃ pkt, (Stream.Close s sg u1).2 = some pkt ∧
        hasFlag (pktFlags pkt) PACKET_FLAG_CLOSE = true ∧
        hasFlag (pktFlags pkt) PACKET_FLAG_SIGNATURE_INCLUDED = true) := by
  refine ⟨?_, fun h => Close_not_open s sg u1 h, fun h => ?_⟩
  · rw [Close_not_open _ sg u2 (Close_fst_not_open s sg u1)]
  · have hrw : Stream.Close s sg u1
        = ({ s with isOpen := false, sequenceNumber := s.sequenceNumber + 1 },
            some ((be32 s.sendStreamID ++ be32 s.recvStreamID ++ be32 s.sequenceNumber ++
                be32 s.lastReceivedSequenceNumber ++ [0, u1] ++
                be16 (PACKET_FLAG_CLOSE ||| PACKET_FLAG_SIGNATURE_INCLUDED) ++ be16 40) ++
              sg ((be32 s.sendStreamID ++ be32 s.recvStreamID ++ be32 s.sequenceNumber ++
                be32 s.lastReceivedSequenceNumber ++ [0, u1] ++
                be16 (PACKET_FLAG_CLOSE ||| PACKET_FLAG_SIGNATURE_INCLUDED) ++ be16 40) ++
                List.replicate 40 0))) := by
      unfold Stream.Close
      rw [if_pos h]
    rw [hrw]
    refine ⟨rfl, rfl, _, rfl, ?_, ?_⟩
    · rw [pktFlags_built]
      decide
    · rw [pktFlags_built]
      decide

/-- Witness for C6_close_idempotent at a concrete input. -/
theorem C6_close_idempotent_witness :
    (mkIncomingStream 3).isOpen = true ∧
    ((Stream.Close (mkIncomingStream 3) (fun _ => List.replicate 40 0) 0).1.isOpen = false ∧
      (Stream.Close (mkIncomingStream 3) (fun _ => List.replicate 40 0) 0).1.sequenceNumber
        = (mkIncomingStream 3).sequenceNumber + 1 ∧
      ∃ pkt, (Stream.Close (mkIncomingStream 3) (fun _ => List.replicate 40 0) 0).2 = some pkt ∧
        hasFlag (pktFlags pkt) PACKET_FLAG_CLOSE = true ∧
        hasFlag (pktFlags pkt) PACKET_FLAG_SIGNATURE_INCLUDED = true) :=
  ⟨rfl, (C6_close_idempotent (mkIncomingStream 3) (fun _ => List.replicate 40 0) 0 0).2.2 rfl⟩

/-- The external DSA signer used in concrete runs: a constant 40-byte
signature. -/
def zeroSign : List Nat → List Nat := fun _ => List.replicate 40 0

/-- The local identity used in concrete runs: 387 zero bytes. -/
def zeroIdentity : List Nat := List.replicate 387 0

/-- An incoming stream that has been closed by Close(). -/
def closedStream : Stream := (Stream.Close (mkIncomingStream 7) zeroSign 0).1

/-- C1 (counterexample): Send on a stream closed by Close() is not
rejected: it returns the payload length 2 (neither failing nor returning
0), schedules a packet for transmission, and re-opens the stream. -/
theorem C1_counterexample :
    closedStream.isOpen = false ∧
    (Stream.Send closedStream zeroIdentity zeroSign 0 [1, 2] 0).ret = 2 ∧
    (Stream.Send closedStream zeroIdentity zeroSign 0 [1, 2] 0).scheduled ≠ [] ∧
    (Stream.Send closedStream zeroIdentity zeroSign 0 [1, 2] 0).state.isOpen = true := by
  decide

/-- C1 (amended): on any stream with is_open false — which includes every
stream after Close() or after an inbound CLOSE — Send is not rejected: it
is treated as the initial send, returning the full payload length,
scheduling a SYN packet, consuming a sequence number, and re-opening the
stream. -/
theorem C1_send_after_close (s : Stream) (identity : List Nat)
    (sg : List Nat → List Nat) (u : Nat) (buf : List Nat) (tmo : Nat)
    (h : s.isOpen = false) :
    (Stream.Send s identity sg u buf tmo).ret = buf.length ∧
    (Stream.Send s identity sg u buf tmo).state.isOpen = true ∧
    (Stream.Send s identity sg u buf tmo).state.sequenceNumber = s.sequenceNumber + 1 ∧
    hasFlag (pktFlags (Stream.Send s identity sg u buf tmo).scheduled)
      PACKET_FLAG_SYNCHRONIZE = true := by
  unfold Stream.Send
  dsimp only
  rw [if_pos h]
  refine ⟨rfl, rfl, rfl, ?_⟩
  rw [pktFlags_synBuilt]
  decide

/-- Witness for C1_send_after_close at a concrete input. -/
theorem C1_send_after_close_witness :
    closedStream.isOpen = false ∧
    ((Stream.Send closedStream zeroIdentity zeroSign 0 [1, 2] 0).ret = [1, 2].length ∧
      (Stream.Send closedStream zeroIdentity zeroSign 0 [1, 2] 0).state.isOpen = true ∧
      (Stream.Send closedStream zeroIdentity zeroSign 0 [1, 2] 0).state.sequenceNumber
        = closedStream.sequenceNumber + 1 ∧
      hasFlag (pktFlags (Stream.Send closedStream zeroIdentity zeroSign 0 [1, 2] 0).scheduled)
        PACKET_FLAG_SYNCHRONIZE = true) :=
  ⟨by decide, C1_send_after_close closedStream zeroIdentity zeroSign 0 [1, 2] 0 (by decide)⟩

/-- Reading a just-written byte back from a buffer. -/
theorem getD_set_eq (l : List Nat) (i v : Nat) (h : i < l.length) :
    (l.set i v).getD i 0 = v := by
  rw [List.getD_eq_getElem _ _ (by simpa using h)]
  simp [List.getElem_set]

/-- A byte write does not disturb other positions. -/
theorem getD_set_ne (l : List Nat) (i j v : Nat) (h : i ≠ j) :
    (l.set i v).getD j 0 = l.getD j 0 := by
  unfold List.getD
  rw [List.get?_set_ne v l h]

/-- C7 (counterexample): CreateDataMessage does not write 8 zero bytes at
offset 4 of the inner payload: for the 12-byte compressed stream of 170s,
the inner byte at offset 8 keeps its value 170 instead of becoming 0. -/
theorem C7_counterexample :
    ¬ (∀ compressed : List Nat, ∀ i : Nat, i < 8 →
        ((CreateDataMessage compressed).drop 4).getD (4 + i) 0 = 0) := by
  intro h
  exact absurd (h (List.replicate 12 170) 4 (by decide)) (by decide)

/-- C7 (amended): the message body is the 4-byte big-endian compressed
size followed by the gzip stream, in which only the 4 bytes at offsets
4..7 are zeroed (source and destination ports) and the byte at offset 9
becomes the protocol id 6; every other byte of the gzip stream, including
offset 8, is preserved. -/
theorem C7_data_message_layout (compressed : List Nat) (h10 : 10 ≤ compressed.length) :
    (CreateDataMessage compressed).take 4 = be32 compressed.length ∧
    ((CreateDataMessage compressed).drop 4).length = compressed.length ∧
    (∀ i, 4 ≤ i → i ≤ 7 → ((CreateDataMessage compressed).drop 4).getD i 0 = 0) ∧
    ((CreateDataMessage compressed).drop 4).getD 8 0 = compressed.getD 8 0 ∧
    ((CreateDataMessage compressed).drop 4).getD 9 0 = 6 ∧
    (∀ i, i < 4 ∨ 10 ≤ i →
      ((CreateDataMessage compressed).drop 4).getD i 0 = compressed.getD i 0) := by
  have hlen : ∀ j, j < 10 → j < compressed.length := fun j hj => lt_of_lt_of_le hj h10
  have htake : (CreateDataMessage compressed).take 4 = be32 compressed.length := by
    unfold CreateDataMessage
    dsimp only
    exact List.take_left' (by simp [be32])
  have hdrop : (CreateDataMessage compressed).drop 4
      = ((((compressed.set 4 0).set 5 0).set 6 0).set 7 0).set 9 6 := by
    unfold CreateDataMessage
    dsimp only
    exact List.drop_left' (by simp [be32])
  refine ⟨htake, ?_, ?_, ?_, ?_, ?_⟩
  · rw [hdrop]; simp
  · intro i h4 h7
    rw [hdrop]
    interval_cases i
    · rw [getD_set_ne _ _ _ _ (by decide), getD_set_ne _ _ _ _ (by decide),
        getD_set_ne _ _ _ _ (by decide), getD_set_ne _ _ _ _ (by decide),
        getD_set_eq _ _ _ (hlen 4 (by decide))]
    · rw [getD_set_ne _ _ _ _ (by decide), getD_set_ne _ _ _ _ (by decide),
        getD_set_ne _ _ _ _ (by decide),
        getD_set_eq _ _ _ (by simpa using hlen 5 (by decide))]
    · rw [getD_set_ne _ _ _ _ (by decide), getD_set_ne _ _ _ _ (by decide),
        getD_set_eq _ _ _ (by simpa using hlen 6 (by decide))]
    · rw [getD_set_ne _ _ _ _ (by decide),
        getD_set_eq _ _ _ (by simpa using hlen 7 (by decide))]
  · rw [hdrop, getD_set_ne _ _ _ _ (by decide), getD_set_ne _ _ _ _ (by decide),
      getD_set_ne _ _ _ _ (by decide), getD_set_ne _ _ _ _ (by decide),
      getD_set_ne _ _ _ _ (by decide)]
  · rw [hdrop, getD_set_eq _ _ _ (by simpa using hlen 9 (by decide))]
  · intro i hi
    have h9 : (9 : Nat) ≠ i := by omega
    have h7 : (7 : Nat) ≠ i := by omega
    have h6 : (6 : Nat) ≠ i := by omega
    have h5 : (5 : Nat) ≠ i := by omega
    have h4 : (4 : Nat) ≠ i := by omega
    rw [hdrop, getD_set_ne _ _ _ _ h9, getD_set_ne _ _ _ _ h7, getD_set_ne _ _ _ _ h6,
      getD_set_ne _ _ _ _ h5, getD_set_ne _ _ _ _ h4]

/-- Witness for C7_data_message_layout at a concrete input. -/
theorem C7_data_message_layout_witness :
    10 ≤ (List.replicate 12 (170 : Nat)).length ∧
    ((CreateDataMessage (List.replicate 12 170)).take 4
        = be32 (List.replicate 12 (170 : Nat)).length ∧
      ((CreateDataMessage (List.replicate 12 170)).drop 4).length
        = (List.replicate 12 (170 : Nat)).length ∧
      (∀ i, 4 ≤ i → i ≤ 7 →
        ((CreateDataMessage (List.replicate 12 170)).drop 4).getD i 0 = 0) ∧
      ((CreateDataMessage (List.replicate 12 170)).drop 4).getD 8 0
        = (List.replicate 12 (170 : Nat)).getD 8 0 ∧
      ((CreateDataMessage (List.replicate 12 170)).drop 4).getD 9 0 = 6 ∧
      (∀ i, i < 4 ∨ 10 ≤ i →
        ((CreateDataMessage (List.replicate 12 170)).drop 4).getD i 0
          = (List.replicate 12 (170 : Nat)).getD i 0)) :=
  ⟨by decide, C7_data_message_layout (List.replicate 12 170) (by decide)⟩

/-- When the remote lease set is already bound, SendPacket reaches the
wrap step; with the piggyback flag pending it bundles the local lease-set
message into the wrap call and clears the flag. -/
theorem SendPacketLow_piggyback_bound (s1 : Stream) (env : SendPacketEnv)
    (hflag : s1.leaseSetUpdated = true) (hbound : s1.remoteLeaseSet.isNone = false) :
    (Stream.SendPacketLow s1 env).2.1 = some { bundledLeaseSet := true } ∧
    (Stream.SendPacketLow s1 env).1.leaseSetUpdated = false := by
  unfold Stream.SendPacketLow
  dsimp only
  simp only [hbound, Bool.false_eq_true, if_false]
  rw [hflag]
  constructor
  · repeat' split
    all_goals rfl
  · repeat' split
    all_goals
      first
        | rfl
        | rw [(UpdateCurrentRemoteLease_preserves _ env.netdbFind env.rnd2 env.now).2.2.2.1]

/-- Every SendPacket call with the piggyback flag pending either fails
before the wrap step (leaving the flag pending) or bundles the lease-set
message and clears the flag. -/
theorem SendPacketLow_piggyback (s : Stream) (env : SendPacketEnv)
    (hflag : s.leaseSetUpdated = true) :
    (Stream.SendPacketLow s env).2.1 = none ∨
    ((Stream.SendPacketLow s env).2.1 = some { bundledLeaseSet := true } ∧
      (Stream.SendPacketLow s env).1.leaseSetUpdated = false) := by
  by_cases h0 : s.remoteLeaseSet.isNone = true
  · by_cases h1 : (Stream.UpdateCurrentRemoteLease s env.netdbFind env.rnd1
        env.now).remoteLeaseSet.isNone = true
    · left
      unfold Stream.SendPacketLow
      dsimp only
      rw [if_pos h0, if_pos h1]
    · have h1f : (Stream.UpdateCurrentRemoteLease s env.netdbFind env.rnd1
          env.now).remoteLeaseSet.isNone = false := by
        rw [← Bool.not_eq_true]; exact h1
      have hstep : Stream.SendPacketLow s env
          = Stream.SendPacketLow (Stream.UpdateCurrentRemoteLease s env.netdbFind env.rnd1
              env.now) env := by
        unfold Stream.SendPacketLow
        dsimp only
        simp only [if_pos h0, if_neg h1]
      rw [hstep]
      right
      refine SendPacketLow_piggyback_bound _ env ?_ h1f
      rw [(UpdateCurrentRemoteLease_preserves s env.netdbFind env.rnd1 env.now).2.2.2.1]
      exact hflag
  · right
    refine SendPacketLow_piggyback_bound s env hflag ?_
    rw [← Bool.not_eq_true]; exact h0

/-- C8: every stream — outgoing or incoming — is born with the lease-set
piggyback flag set, so the first SendPacket that reaches the garlic-wrap
step bundles the local lease-set message into the wrap and clears the
flag. -/
theorem C8_piggyback_first_wrap (recvID : Nat) (remote : LeaseSetM) (rnd now : Nat)
    (s : Stream) (env : SendPacketEnv) (w : WrapCall)
    (hflag : s.leaseSetUpdated = true)
    (hw : (Stream.SendPacketLow s env).2.1 = some w) :
    (mkOutgoingStream recvID remote rnd now).leaseSetUpdated = true ∧
    (mkIncomingStream recvID).leaseSetUpdated = true ∧
    w.bundledLeaseSet = true ∧
    (Stream.SendPacketLow s env).1.leaseSetUpdated = false := by
  have hout : (mkOutgoingStream recvID remote rnd now).leaseSetUpdated = true := by
    unfold mkOutgoingStream
    rw [(UpdateCurrentRemoteLease_preserves _ none rnd now).2.2.2.1]
  rcases SendPacketLow_piggyback s env hflag with hnone | ⟨hsome, hcleared⟩
  · rw [hnone] at hw; cases hw
  · rw [hsome] at hw
    have hwv : w = { bundledLeaseSet := true } := (Option.some.inj hw).symm
    exact ⟨hout, rfl, by rw [hwv], hcleared⟩

/-- Environment used by the concrete C8 witness run: netdb knows a lease
set with one valid lease, the tunnel pool has a tunnel, the clock is 10. -/
def c8Env : SendPacketEnv :=
  { netdbFind := some { identHash := 1, leases := [leaseA] }, rnd1 := 0, rnd2 := 0,
    now := 10, tunnelAvailable := true }

/-- Witness for C8_piggyback_first_wrap at a concrete input. -/
theorem C8_piggyback_first_wrap_witness :
    (mkIncomingStream 3).leaseSetUpdated = true ∧
    (Stream.SendPacketLow (mkIncomingStream 3) c8Env).2.1
      = some { bundledLeaseSet := true } ∧
    ((mkOutgoingStream 4 twoLeaseSet 0 10).leaseSetUpdated = true ∧
      (mkIncomingStream 4).leaseSetUpdated = true ∧
      WrapCall.bundledLeaseSet { bundledLeaseSet := true } = true ∧
      (Stream.SendPacketLow (mkIncomingStream 3) c8Env).1.leaseSetUpdated = false) :=
  ⟨by decide, by decide,
    C8_piggyback_first_wrap 4 twoLeaseSet 0 10 (mkIncomingStream 3) c8Env
      { bundledLeaseSet := true } (by decide) (by decide)⟩

/-- setAssoc on an absent key appends one binding. -/
theorem setAssoc_length_of_lookup_none {α : Type} (l : List (Nat × α)) (k : Nat) (v : α)
    (h : l.lookup k = none) : (setAssoc l k v).length = l.length + 1 := by
  induction l with
  | nil => rfl
  | cons kv rest ih =>
      obtain ⟨k', v'⟩ := kv
      by_cases hk : (k == k') = true
      · exfalso
        simp [List.lookup, hk] at h
      · simp only [List.lookup, hk] at h
        unfold setAssoc
        simp only [hk, Bool.false_eq_true, if_false, List.length_cons]
        rw [ih (by simpa using h)]

/-- setAssoc registers the binding it writes. -/
theorem setAssoc_lookup_self {α : Type} (l : List (Nat × α)) (k : Nat) (v : α) :
    (setAssoc l k v).lookup k = some v := by
  induction l with
  | nil => simp [setAssoc, List.lookup]
  | cons kv rest ih =>
      obtain ⟨k', v'⟩ := kv
      by_cases hk : (k == k') = true
      · simp [setAssoc, hk, List.lookup]
      · simp only [setAssoc, hk, Bool.false_eq_true, if_false]
        simpa [List.lookup, hk] using ih

/-- C9: a packet posted for a destination hash absent from the registry
table is dropped (the Bool records the delete) and the registry and every
destination in it are left exactly as they were. -/
theorem C9_unknown_destination_drop (dests : List (Nat × Destination)) (destination : Nat)
    (p : Packet) (fresh : Nat) (o : Oracle) (h : dests.lookup destination = none) :
    PostNextPacket dests destination p fresh o = (dests, true) := by
  unfold PostNextPacket
  rw [h]

/-- Witness for C9_unknown_destination_drop at a concrete input. -/
theorem C9_unknown_destination_drop_witness :
    ([((1 : Nat), Destination.mk [] false)].lookup 2 = none) ∧
    PostNextPacket [((1 : Nat), Destination.mk [] false)] 2 (dataPacket 1) 9 plainOracle
      = ([((1 : Nat), Destination.mk [] false)], true) :=
  ⟨by decide,
    C9_unknown_destination_drop [((1 : Nat), Destination.mk [] false)] 2 (dataPacket 1) 9
      plainOracle (by decide)⟩

/-- C10: any packet with send stream id 0 — a fresh SYN, a retransmitted
SYN, or even a pure ACK — makes the destination create and register an
additional incoming stream under a fresh recv stream id, invoke the
acceptor exactly when one is set, and forward the packet to the new
stream; no check for an existing stream matching the packet is made. -/
theorem C10_sid0_creates_stream (d : Destination) (p : Packet) (fresh : Nat) (o : Oracle)
    (hsid : p.sendStreamID = 0) (hfresh : d.streams.lookup fresh = none) :
    (Destination.HandleNextPacket d p fresh o).dest.streams.length
      = d.streams.length + 1 ∧
    (Destination.HandleNextPacket d p fresh o).acceptorInvoked = d.hasAcceptor ∧
    (Destination.HandleNextPacket d p fresh o).forwardedTo = some fresh ∧
    (Destination.HandleNextPacket d p fresh o).dest.streams.lookup fresh
      = some (Stream.HandleNextPacket (mkIncomingStream fresh) p o).1 := by
  unfold Destination.HandleNextPacket
  rw [if_neg (by simp [hsid])]
  dsimp only
  exact ⟨setAssoc_length_of_lookup_none _ _ _ hfresh, rfl, rfl,
    setAssoc_lookup_self _ _ _⟩

/-- A pure-ACK packet (sequence number 0, no SYN flag) whose send stream
id is 0. -/
def pureAckSid0 : Packet :=
  { sendStreamID := 0, recvStreamID := 77, seqn := 0, ackThrough := 3, flags := 0,
    identity := 0, payload := [] }

/-- A destination owning one stream and an acceptor, for the C10 witness. -/
def c10Dest : Destination :=
  { streams := [(5, mkIncomingStream 5)], hasAcceptor := true }

/-- Witness for C10_sid0_creates_stream at a concrete input. -/
theorem C10_sid0_creates_stream_witness :
    pureAckSid0.sendStreamID = 0 ∧
    c10Dest.streams.lookup 42 = none ∧
    ((Destination.HandleNextPacket c10Dest pureAckSid0 42 plainOracle).dest.streams.length
        = c10Dest.streams.length + 1 ∧
      (Destination.HandleNextPacket c10Dest pureAckSid0 42 plainOracle).acceptorInvoked
        = c10Dest.hasAcceptor ∧
      (Destination.HandleNextPacket c10Dest pureAckSid0 42 plainOracle).forwardedTo
        = some 42 ∧
      (Destination.HandleNextPacket c10Dest pureAckSid0 42 plainOracle).dest.streams.lookup 42
        = some (Stream.HandleNextPacket (mkIncomingStream 42) pureAckSid0 plainOracle).1) :=
  ⟨by decide, by decide,
    C10_sid0_creates_stream c10Dest pureAckSid0 42 plainOracle (by decide) (by decide)⟩

/-- The options block of the SYN-shaped packet is identity, MTU and
signature, in that order. -/
theorem synChain_options {A B C D n0 n1 f g m : Nat} {identity sigBytes buf : List Nat}
    (hid : identity.length = 387) (hs : sigBytes.length = 40) :
    ((be32 A ++ be32 B ++ be32 C ++ be32 D ++ [n0, n1] ++ be16 f ++ be16 g ++
        identity ++ be16 m ++ sigBytes ++ buf).drop 22).take 429
      = identity ++ be16 m ++ sigBytes := by
  rw [drop22_synBuilt]
  exact List.take_left' (by simp [be16, hid, hs])

/-- The first 411 bytes of the SYN-shaped packet are everything up to and
including the advertised MTU, i.e. the region before the signature. -/
theorem synChain_take411 {A B C D n0 n1 f g m : Nat} {identity sigBytes buf : List Nat}
    (hid : identity.length = 387) :
    (be32 A ++ be32 B ++ be32 C ++ be32 D ++ [n0, n1] ++ be16 f ++ be16 g ++
        identity ++ be16 m ++ sigBytes ++ buf).take 411
      = be32 A ++ be32 B ++ be32 C ++ be32 D ++ [n0, n1] ++ be16 f ++ be16 g ++
        identity ++ be16 m := by
  rw [List.append_assoc]
  exact List.take_left' (by simp [be32, be16, hid])

/-- The bytes of the SYN-shaped packet after the 40-byte signature region
are exactly the payload. -/
theorem synChain_drop451 {A B C D n0 n1 f g m : Nat} {identity sigBytes buf : List Nat}
    (hid : identity.length = 387) (hs : sigBytes.length = 40) :
    (be32 A ++ be32 B ++ be32 C ++ be32 D ++ [n0, n1] ++ be16 f ++ be16 g ++
        identity ++ be16 m ++ sigBytes ++ buf).drop 451 = buf :=
  List.drop_left' (by simp [be32, be16, hid, hs])

/-- Byte layout of the opening packet built by Send on a not-yet-open
stream with next sequence number 0: sequence number 0; flags SYNCHRONIZE,
FROM_INCLUDED, SIGNATURE_INCLUDED, MAX_PACKET_SIZE_INCLUDED, NO_ACK;
options block of 429 bytes holding the 387-byte identity, the 2-byte MTU
and the 40-byte signature computed by the signer over the whole packet
with the signature region zeroed; payload appended; the call returns the
payload length and opens the stream. -/
theorem Send_syn_shape (s : Stream) (identity : List Nat) (sg : List Nat → List Nat)
    (u : Nat) (buf : List Nat) (tmo : Nat) (hopen : s.isOpen = false)
    (hseq : s.sequenceNumber = 0) (hid : identity.length = 387)
    (hsg : ∀ mm, (sg mm).length = 40) :
    pktSeqn (Stream.Send s identity sg u buf tmo).scheduled = 0 ∧
    pktFlags (Stream.Send s identity sg u buf tmo).scheduled
      = (PACKET_FLAG_SYNCHRONIZE ||| PACKET_FLAG_FROM_INCLUDED |||
          PACKET_FLAG_SIGNATURE_INCLUDED ||| PACKET_FLAG_MAX_PACKET_SIZE_INCLUDED |||
          PACKET_FLAG_NO_ACK) ∧
    pktOptionSize (Stream.Send s identity sg u buf tmo).scheduled = 429 ∧
    pktOptions (Stream.Send s identity sg u buf tmo).scheduled
      = identity ++ be16 STREAMING_MTU ++
        sg ((Stream.Send s identity sg u buf tmo).scheduled.take 411 ++
          List.replicate 40 0 ++ (Stream.Send s identity sg u buf tmo).scheduled.drop 451) ∧
    pktPayload (Stream.Send s identity sg u buf tmo).scheduled = buf ∧
    (Stream.Send s identity sg u buf tmo).ret = buf.length ∧
    (Stream.Send s identity sg u buf tmo).state.isOpen = true := by
  unfold Stream.Send
  dsimp only
  rw [if_pos hopen]
  dsimp only
  rw [hseq]
  have hsz : pktOptionSize (be32 s.sendStreamID ++ be32 s.recvStreamID ++ be32 0 ++
      be32 0 ++ [0, u] ++
      be16 (PACKET_FLAG_SYNCHRONIZE ||| PACKET_FLAG_FROM_INCLUDED |||
        PACKET_FLAG_SIGNATURE_INCLUDED ||| PACKET_FLAG_MAX_PACKET_SIZE_INCLUDED |||
        PACKET_FLAG_NO_ACK) ++
      be16 (IDENTITY_SIZE + 40 + 2) ++ identity ++ be16 STREAMING_MTU ++
      sg (be32 s.sendStreamID ++ be32 s.recvStreamID ++ be32 0 ++ be32 0 ++ [0, u] ++
        be16 (PACKET_FLAG_SYNCHRONIZE ||| PACKET_FLAG_FROM_INCLUDED |||
          PACKET_FLAG_SIGNATURE_INCLUDED ||| PACKET_FLAG_MAX_PACKET_SIZE_INCLUDED |||
          PACKET_FLAG_NO_ACK) ++
        be16 (IDENTITY_SIZE + 40 + 2) ++ identity ++ be16 STREAMING_MTU ++
        List.replicate 40 0 ++ buf) ++ buf) = 429 := by
    rw [pktOptionSize_synBuilt]
    decide
  refine ⟨?_, ?_, hsz, ?_, ?_, rfl, rfl⟩
  · rw [pktSeqn_synBuilt]
  · rw [pktFlags_synBuilt]
    decide
  · unfold pktOptions
    rw [hsz, synChain_options hid (hsg _), synChain_take411 hid,
      synChain_drop451 hid (hsg _)]
  · unfold pktPayload
    rw [hsz]
    exact synChain_drop451 hid (hsg _)

/-- Byte layout of a follow-on packet built by Send on an open stream: no
flags, empty options block, the payload immediately after the header, and
the call returns the payload length. -/
theorem Send_followon_shape (s : Stream) (identity : List Nat) (sg : List Nat → List Nat)
    (u : Nat) (buf : List Nat) (tmo : Nat) (hopen : s.isOpen = true) :
    pktFlags (Stream.Send s identity sg u buf tmo).scheduled = 0 ∧
    pktOptionSize (Stream.Send s identity sg u buf tmo).scheduled = 0 ∧
    pktPayload (Stream.Send s identity sg u buf tmo).scheduled = buf ∧
    (Stream.Send s identity sg u buf tmo).ret = buf.length := by
  unfold Stream.Send
  dsimp only
  rw [if_neg (by simp [hopen])]
  dsimp only
  have hsz : pktOptionSize (be32 s.sendStreamID ++ be32 s.recvStreamID ++
      be32 s.sequenceNumber ++ be32 0 ++ [0, u] ++ be16 0 ++ be16 0 ++ buf) = 0 := by
    rw [pktOptionSize_built]
  refine ⟨?_, hsz, ?_, rfl⟩
  · rw [pktFlags_built]
  · unfold pktPayload
    rw [hsz]
    exact drop22_built _ _ _ _ _ _ _ _ _

/-- C5: on a newly created outgoing stream the first Send builds one
packet with sequence number 0, the five opening flags, and a 429-byte
options block holding the 387-byte identity, the advertised MTU 1730 and
the 40-byte signature computed over the whole packet with the signature
region zeroed; on any open stream a Send builds a packet with no flags
and an empty options block; both return the payload length. -/
theorem C5_first_send (recvID : Nat) (remote : LeaseSetM) (rnd now : Nat)
    (identity : List Nat) (sg : List Nat → List Nat) (u : Nat) (buf : List Nat)
    (tmo : Nat) (hid : identity.length = 387) (hsg : ∀ mm, (sg mm).length = 40) :
    (pktSeqn (Stream.Send (mkOutgoingStream recvID remote rnd now) identity sg u buf
        tmo).scheduled = 0 ∧
      pktFlags (Stream.Send (mkOutgoingStream recvID remote rnd now) identity sg u buf
          tmo).scheduled
        = (PACKET_FLAG_SYNCHRONIZE ||| PACKET_FLAG_FROM_INCLUDED |||
            PACKET_FLAG_SIGNATURE_INCLUDED ||| PACKET_FLAG_MAX_PACKET_SIZE_INCLUDED |||
            PACKET_FLAG_NO_ACK) ∧
      pktOptionSize (Stream.Send (mkOutgoingStream recvID remote rnd now) identity sg u
          buf tmo).scheduled = 429 ∧
      pktOptions (Stream.Send (mkOutgoingStream recvID remote rnd now) identity sg u buf
          tmo).scheduled
        = identity ++ be16 STREAMING_MTU ++
          sg ((Stream.Send (mkOutgoingStream recvID remote rnd now) identity sg u buf
                tmo).scheduled.take 411 ++
            List.replicate 40 0 ++
            (Stream.Send (mkOutgoingStream recvID remote rnd now) identity sg u buf
                tmo).scheduled.drop 451) ∧
      pktPayload (Stream.Send (mkOutgoingStream recvID remote rnd now) identity sg u buf
          tmo).scheduled = buf ∧
      (Stream.Send (mkOutgoingStream recvID remote rnd now) identity sg u buf tmo).ret
        = buf.length ∧
      (Stream.Send (mkOutgoingStream recvID remote rnd now) identity sg u buf
          tmo).state.isOpen = true) ∧
    (∀ (s : Stream) (buf2 : List Nat) (u2 tmo2 : Nat), s.isOpen = true →
      pktFlags (Stream.Send s identity sg u2 buf2 tmo2).scheduled = 0 ∧
      pktOptionSize (Stream.Send s identity sg u2 buf2 tmo2).scheduled = 0 ∧
      pktPayload (Stream.Send s identity sg u2 buf2 tmo2).scheduled = buf2 ∧
      (Stream.Send s identity sg u2 buf2 tmo2).ret = buf2.length) := by
  have hopen : (mkOutgoingStream recvID remote rnd now).isOpen = false := by
    unfold mkOutgoingStream
    rw [(UpdateCurrentRemoteLease_preserves _ none rnd now).2.2.2.2.1]
  have hseq : (mkOutgoingStream recvID remote rnd now).sequenceNumber = 0 := by
    unfold mkOutgoingStream
    rw [(UpdateCurrentRemoteLease_preserves _ none rnd now).2.2.2.2.2]
  exact ⟨Send_syn_shape _ identity sg u buf tmo hopen hseq hid hsg,
    fun s buf2 u2 tmo2 hopen2 => Send_followon_shape s identity sg u2 buf2 tmo2 hopen2⟩

/-- The concrete first Send of the C5 witness: fresh outgoing stream,
zero identity and constant signer, payload [7, 7]. -/
def c5Run : SendResult :=
  Stream.Send (mkOutgoingStream 9 twoLeaseSet 0 10) zeroIdentity zeroSign 0 [7, 7] 0

/-- The concrete follow-on Send of the C5 witness: an open stream and
payload [8, 8, 8]. -/
def c5Run2 : SendResult :=
  Stream.Send (mkIncomingStream 3) zeroIdentity zeroSign 0 [8, 8, 8] 0

set_option maxRecDepth 8000 in
/-- Witness for C5_first_send at a concrete input. -/
theorem C5_first_send_witness :
    zeroIdentity.length = 387 ∧
    (zeroSign []).length = 40 ∧
    (mkIncomingStream 3).isOpen = true ∧
    (pktSeqn c5Run.scheduled = 0 ∧
      pktFlags c5Run.scheduled
        = (PACKET_FLAG_SYNCHRONIZE ||| PACKET_FLAG_FROM_INCLUDED |||
            PACKET_FLAG_SIGNATURE_INCLUDED ||| PACKET_FLAG_MAX_PACKET_SIZE_INCLUDED |||
            PACKET_FLAG_NO_ACK) ∧
      pktOptionSize c5Run.scheduled = 429 ∧
      pktOptions c5Run.scheduled
        = zeroIdentity ++ be16 STREAMING_MTU ++
          zeroSign (c5Run.scheduled.take 411 ++ List.replicate 40 0 ++
            c5Run.scheduled.drop 451) ∧
      pktPayload c5Run.scheduled = [7, 7] ∧
      c5Run.ret = [7, 7].length ∧
      c5Run.state.isOpen = true) ∧
    (pktFlags c5Run2.scheduled = 0 ∧
      pktOptionSize c5Run2.scheduled = 0 ∧
      pktPayload c5Run2.scheduled = [8, 8, 8] ∧
      c5Run2.ret = [8, 8, 8].length) :=
  ⟨by decide, rfl, rfl,
    (C5_first_send 9 twoLeaseSet 0 10 zeroIdentity zeroSign 0 [7, 7] 0 (by decide)
      (fun _ => rfl)).1,
    (C5_first_send 9 twoLeaseSet 0 10 zeroIdentity zeroSign 0 [7, 7] 0 (by decide)
      (fun _ => rfl)).2 (mkIncomingStream 3) [8, 8, 8] 0 0 rfl⟩

end I2pdStreaming
